import Mathlib

/-!
Verification of the catalog / table core of `wolfeidau/iceberg-go`.

The development shallowly embeds the two Go source files:
  * `catalog/glue.go` (the Glue-backed catalog: `GetTable`, `ListTables`,
    identifier conversions), and
  * `table/table.go` (the `Table` value, its equality, the `TableBuilder`,
    and `GenerateMetadataFileName`).

Go maps of string parameters are embedded as association lists whose lookup
returns `""` for a missing key, matching Go's zero-value map indexing.
Fallible functions return `Except`.  Randomness (UUID minting) is
externalized: a fresh UUID is an explicit argument.  The opaque AWS Glue
client (`GlueAPI`) is a record of functions; its errors form a small ADT
with `entityNotFound` standing for `types.EntityNotFoundException`.
-/

namespace IcebergGo

/-- `type Identifier = []string` (table/table.go): an ordered sequence of
name components. -/
abbrev Identifier := List String

/-- The catalog-backend kind enum.  Modelled from the spec: the enum type
itself lives in a file not included in the sources; only the Glue variant
is used by the included code. -/
inductive CatalogType where
  | glue
deriving DecidableEq, Repr

/-- Errors returned by the opaque Glue client: either the entity-not-found
exception or any other failure. -/
inductive GlueError where
  | entityNotFound
  | other (msg : String)
deriving DecidableEq, Repr

/-- Errors produced by the embedded Glue catalog.  `noSuchTable` is the
distinguished sentinel `ErrNoSuchTable`; `invalidIdentifier` carries the
offending identifier (Go formats it into the message);
`getTableFailed`/`listTablesFailed` are the `fmt.Errorf(..., %w, err)`
wrappers and carry the names they mention plus the original cause. -/
inductive CatalogError where
  | invalidIdentifier (id : Identifier)
  | noSuchTable
  | notIcebergTable
  | getTableFailed (database tableName : String) (cause : GlueError)
  | listTablesFailed (database : String) (cause : GlueError)
deriving DecidableEq, Repr

end IcebergGo

namespace IcebergGo

/-- Lookup in a Go `map[string]string`: a missing key yields the zero
value `""`. -/
def lookupParam (params : List (String × String)) (key : String) : String :=
  match params.find? (fun p => p.1 == key) with
  | some p => p.2
  | none => ""

/-- One record of the Glue backend's response: the table name and its
`Parameters` property map. -/
structure GlueTableRecord where
  name : String
  parameters : List (String × String)
deriving DecidableEq, Repr

/-- The opaque Glue client interface (`GlueAPI` in glue.go), as a record
of functions; the cancellation context is not modelled. -/
structure GlueAPI where
  getTable : String → String → Except GlueError GlueTableRecord
  getTables : String → Except GlueError (List GlueTableRecord)

/-- `identifierToGlueTable`: requires exactly 2 components and returns
`(identifier[0], identifier[1])`, otherwise the invalid-identifier error. -/
def identifierToGlueTable (identifier : Identifier) :
    Except CatalogError (String × String) :=
  if identifier.length ≠ 2 then
    .error (.invalidIdentifier identifier)
  else
    .ok (identifier.getD 0 "", identifier.getD 1 "")

/-- `identifierToGlueDatabase`: requires exactly 1 component and returns
`identifier[0]`, otherwise the invalid-identifier error. -/
def identifierToGlueDatabase (identifier : Identifier) :
    Except CatalogError String :=
  if identifier.length ≠ 1 then
    .error (.invalidIdentifier identifier)
  else
    .ok (identifier.getD 0 "")

/-- `GlueTableIdentifier database table = [database, table]`. -/
def GlueTableIdentifier (database table : String) : Identifier :=
  [database, table]

/-- `GlueDatabaseIdentifier database = [database]`. -/
def GlueDatabaseIdentifier (database : String) : Identifier :=
  [database]

/-- The descriptor returned by catalog lookups:
`CatalogTable{Identifier, Location, CatalogType}`. -/
structure CatalogTable where
  identifier : Identifier
  location : String
  catalogType : CatalogType
deriving DecidableEq, Repr

/-- `GlueCatalog.GetTable`: decompose the identifier, call the backend,
map `EntityNotFoundException` to the `ErrNoSuchTable` sentinel and wrap any
other backend error; reject records whose `table_type` parameter is not
`"ICEBERG"`; on success return the `CatalogTable` holding the identifier as
given and the record's `metadata_location` parameter. -/
def GetTable (svc : GlueAPI) (identifier : Identifier) :
    Except CatalogError CatalogTable :=
  match identifierToGlueTable identifier with
  | .error e => .error e
  | .ok (database, tableName) =>
    match svc.getTable database tableName with
    | .error .entityNotFound => .error .noSuchTable
    | .error e => .error (.getTableFailed database tableName e)
    | .ok tbl =>
      if lookupParam tbl.parameters "table_type" ≠ "ICEBERG" then
        .error .notIcebergTable
      else
        .ok { identifier := identifier
              location := lookupParam tbl.parameters "metadata_location"
              catalogType := .glue }

/-- The per-record body of the `ListTables` loop: `continue` on a record
whose `table_type` is not `"ICEBERG"`, otherwise append the rebuilt
`CatalogTable`. -/
def listTablesEntry (database : String) (tbl : GlueTableRecord) :
    Option CatalogTable :=
  if lookupParam tbl.parameters "table_type" ≠ "ICEBERG" then
    none
  else
    some { identifier := GlueTableIdentifier database tbl.name
           location := lookupParam tbl.parameters "metadata_location"
           catalogType := .glue }

/-- `GlueCatalog.ListTables`: decompose the namespace identifier, call the
backend once, wrap a backend failure, and keep — in backend order — exactly
the records whose `table_type` parameter is `"ICEBERG"`. -/
def ListTables (svc : GlueAPI) (identifier : Identifier) :
    Except CatalogError (List CatalogTable) :=
  match identifierToGlueDatabase identifier with
  | .error e => .error e
  | .ok database =>
    match svc.getTables database with
    | .error e => .error (.listTablesFailed database e)
    | .ok tbls => .ok (tbls.filterMap (listTablesEntry database))

/-! ## The table side (`table/table.go`)

`Metadata` and its constructor `NewMetadataV2` live in `table/metadata.go`,
which is not among the given sources; they are modelled from the spec.
`reflect.DeepEqual` on `Metadata` is structural equality, which the derived
decidable equality captures whatever the exact field set is. -/

/-- A schema, carrying its numeric ID (the sources use `s.ID`); the field
list is opaque content. -/
structure Schema where
  id : Int
  fields : List String
deriving DecidableEq, Repr, Inhabited

/-- A partition spec; opaque content, with the Go zero value as default. -/
structure PartitionSpec where
  specFields : List String := []
deriving DecidableEq, Repr, Inhabited

/-- A sort order; opaque content, with the Go zero value as default. -/
structure SortOrder where
  orderFields : List String := []
deriving DecidableEq, Repr, Inhabited

/-- Modelled from the spec: the immutable Metadata value of §3 — schema set
with current-schema pointer, partition spec, sort order, base location,
table UUID, string property map, snapshot set with current-snapshot
pointer (`table/metadata.go` is not among the sources). -/
structure Metadata where
  schemaList : List Schema
  currentSchemaID : Int
  partitionSpec : PartitionSpec
  sortOrder : SortOrder
  location : String
  tableUUID : String
  properties : List (String × String)
  snapshots : List (Int × String)
  currentSnapshotID : Option Int
deriving DecidableEq, Repr

/-- Modelled from the spec: a storage handle (`io.IO`) is an excluded
collaborator, a key-addressed byte store; only its identity matters here. -/
structure IOHandle where
  root : String
deriving DecidableEq, Repr

/-- `Table{identifier, metadata, metadataLocation, fs}` (table/table.go). -/
structure Table where
  identifier : Identifier
  metadata : Metadata
  metadataLocation : String
  fs : IOHandle
deriving Repr

/-- `Table.Equals`: element-wise identifier equality (`slices.Equal`),
string equality of `metadataLocation`, and `reflect.DeepEqual` of the
metadata; the `fs` field does not participate. -/
def Table.Equals (t other : Table) : Bool :=
  t.identifier == other.identifier &&
    t.metadataLocation == other.metadataLocation &&
    t.metadata == other.metadata

/-- The mutable accumulator `TableBuilder`. -/
structure TableBuilder where
  ident : Identifier
  schema : Schema
  partitionSpec : PartitionSpec
  sortOrder : SortOrder
  location : String
  metadataLocation : String
  properties : List (String × String)
deriving Repr

/-- `NewTableBuilder`: the required inputs, with the optional ones left at
their Go zero values and `properties` initialised to an empty (non-nil)
map. -/
def NewTableBuilder (ident : Identifier) (schema : Schema)
    (location metadataLocation : String) : TableBuilder :=
  { ident := ident
    schema := schema
    partitionSpec := {}
    sortOrder := {}
    location := location
    metadataLocation := metadataLocation
    properties := [] }

/-- `WithPartitionSpec` chained setter. -/
def TableBuilder.WithPartitionSpec (b : TableBuilder) (spec : PartitionSpec) :
    TableBuilder :=
  { b with partitionSpec := spec }

/-- `WithSortOrder` chained setter. -/
def TableBuilder.WithSortOrder (b : TableBuilder) (sortOrder : SortOrder) :
    TableBuilder :=
  { b with sortOrder := sortOrder }

/-- `WithProperties` chained setter. -/
def TableBuilder.WithProperties (b : TableBuilder)
    (properties : List (String × String)) : TableBuilder :=
  { b with properties := properties }

/-- Modelled from the spec: `NewMetadataV2` (§4.5) synthesizes a fresh
Metadata value from the accumulated schema, partition spec, sort order,
location, minted UUID and properties (`table/metadata.go` is not among the
sources; rejection of incompatible inputs is not modelled further). -/
def NewMetadataV2 (schema : Schema) (partitionSpec : PartitionSpec)
    (sortOrder : SortOrder) (location : String) (tableUUID : String)
    (properties : List (String × String)) : Except String Metadata :=
  .ok { schemaList := [schema]
        currentSchemaID := schema.id
        partitionSpec := partitionSpec
        sortOrder := sortOrder
        location := location
        tableUUID := tableUUID
        properties := properties
        snapshots := []
        currentSnapshotID := none }

/-- Modelled from the spec: `io.LoadFS` resolves a storage handle for a
base location (the `io` package is an excluded collaborator). -/
def LoadFS (location : String) : Except String IOHandle :=
  .ok { root := location }

/-- `TableBuilder.Build`: mint a UUID (passed explicitly, standing for
`uuid.New()`), synthesize V2 metadata, resolve the storage handle for the
base location, and assemble the Table. -/
def TableBuilder.Build (b : TableBuilder) (tableUUID : String) :
    Except String Table :=
  match NewMetadataV2 b.schema b.partitionSpec b.sortOrder b.location
      tableUUID b.properties with
  | .error e => .error e
  | .ok metadata =>
    match LoadFS b.location with
    | .error e => .error ("failed to load fs: " ++ e)
    | .ok fs =>
      .ok { identifier := b.ident
            metadata := metadata
            metadataLocation := b.metadataLocation
            fs := fs }

/-! ## Metadata file naming (`GenerateMetadataFileName`)

`fmt.Sprintf "%05d"` renders the (here non-negative) version in decimal,
left-padded with `'0'` to at least five characters.  The decimal rendering
is Lean's `Nat.repr`; `repNat` below is a fuel-free reference rendering
proved equal to it, which supports reasoning about the digit string. -/

/-- Reference decimal rendering, most-significant digit first. -/
def repNat (n : Nat) : List Char :=
  if h : n < 10 then [Nat.digitChar n]
  else repNat (n / 10) ++ [Nat.digitChar (n % 10)]
termination_by n
decreasing_by exact Nat.div_lt_self (by omega) (by omega)

/-- `fmt.Sprintf "%05d"` on a natural number: the decimal rendering padded
with zeros to at least five characters. -/
def sprintfPad5 (n : Nat) : String :=
  ⟨List.replicate (5 - (Nat.repr n).length) '0' ++ (Nat.repr n).data⟩

/-- `GenerateMetadataFileName`: reject a negative version, otherwise
`"%05d-%s.metadata.json"` of the version and a freshly generated UUID
(passed explicitly, standing for `uuid.New().String()`). -/
def GenerateMetadataFileName (newVersion : Int) (u : String) :
    Except String String :=
  if newVersion < 0 then
    .error ("invalid table version: " ++ toString newVersion ++
      " must be a non-negative integer")
  else
    .ok (sprintfPad5 newVersion.toNat ++ "-" ++ u ++ ".metadata.json")

/-- One digit step of decimal evaluation. -/
def digitStep (a : Nat) (c : Char) : Nat := 10 * a + (c.toNat - 48)

/-- The numeric value of a decimal digit string. -/
def decimalValue (s : String) : Nat := s.data.foldl digitStep 0

theorem repNat_def (n : Nat) :
    repNat n = if n < 10 then [Nat.digitChar n]
               else repNat (n / 10) ++ [Nat.digitChar (n % 10)] := by
  rw [repNat]
  by_cases h : n < 10 <;> simp [h]

theorem toDigitsCore_eq_repNat (f : Nat) :
    ∀ n ds, n < f → Nat.toDigitsCore 10 f n ds = repNat n ++ ds := by
  induction f with
  | zero => intro n ds h; omega
  | succ f ih =>
    intro n ds h
    simp only [Nat.toDigitsCore]
    by_cases h10 : n / 10 = 0
    · have hn : n < 10 := by omega
      rw [repNat_def]
      have hmod : n % 10 = n := Nat.mod_eq_of_lt hn
      simp [h10, hn, hmod]
    · have hn : ¬ n < 10 := by omega
      have hge : 10 ≤ n := by omega
      have hlt : n / 10 < f := by
        have h2 : n / 10 < n := Nat.div_lt_self (by omega) (by omega)
        omega
      rw [repNat_def]
      simp only [h10, if_false, hn, ih (n / 10) _ hlt, List.append_assoc,
        List.singleton_append]

theorem repr_data_eq_repNat (n : Nat) : (Nat.repr n).data = repNat n := by
  have h := toDigitsCore_eq_repNat (n + 1) n [] (Nat.lt_succ_self n)
  simp [Nat.repr, Nat.toDigits, List.asString, h]

theorem digitChar_toNat (d : Nat) (h : d < 10) :
    (Nat.digitChar d).toNat = 48 + d := by
  interval_cases d <;> rfl

theorem foldl_digitStep_repNat (n : Nat) :
    ∀ a, (repNat n).foldl digitStep a = a * 10 ^ (repNat n).length + n := by
  induction n using Nat.strong_induction_on with
  | _ n ih =>
    intro a
    rw [repNat_def]
    by_cases h : n < 10
    · simp [h, digitStep, digitChar_toNat n h]
      omega
    · have h1 : n / 10 < n := Nat.div_lt_self (by omega) (by omega)
      have hmod : n % 10 < 10 := Nat.mod_lt n (by omega)
      simp only [h, if_false, List.foldl_append, List.foldl_cons,
        List.foldl_nil, List.length_append, List.length_singleton,
        ih (n / 10) h1 a, digitStep, digitChar_toNat (n % 10) hmod]
      rw [pow_succ]
      have hdm : 10 * (n / 10) + n % 10 = n := Nat.div_add_mod n 10
      calc 10 * (a * 10 ^ (repNat (n / 10)).length + n / 10) + (48 + n % 10 - 48)
          = a * (10 ^ (repNat (n / 10)).length * 10) +
              (10 * (n / 10) + n % 10) := by ring_nf; omega
        _ = a * (10 ^ (repNat (n / 10)).length * 10) + n := by rw [hdm]

theorem foldl_digitStep_zeros (k : Nat) :
    ∀ a, (List.replicate k '0').foldl digitStep a = a * 10 ^ k := by
  induction k with
  | zero => intro a; simp
  | succ k ih =>
    intro a
    simp only [List.replicate, List.foldl_cons, ih (digitStep a '0')]
    have hc : Char.toNat '0' = 48 := by decide
    have h0 : digitStep a '0' = 10 * a := by simp [digitStep, hc]
    rw [h0, pow_succ]
    ring

theorem lt_pow_repNat_length (n : Nat) : n < 10 ^ (repNat n).length := by
  induction n using Nat.strong_induction_on with
  | _ n ih =>
    rw [repNat_def]
    by_cases h : n < 10
    · simpa [h]
    · have h1 : n / 10 < n := Nat.div_lt_self (by omega) (by omega)
      have hdiv := ih (n / 10) h1
      simp only [h, if_false, List.length_append, List.length_singleton]
      rw [pow_succ]
      calc n < (n / 10 + 1) * 10 := by omega
        _ ≤ 10 ^ (repNat (n / 10)).length * 10 :=
          Nat.mul_le_mul_right 10 (by omega)

theorem decimalValue_sprintfPad5 (n : Nat) : decimalValue (sprintfPad5 n) = n := by
  simp only [decimalValue, sprintfPad5, List.foldl_append,
    foldl_digitStep_zeros _ 0, repr_data_eq_repNat,
    foldl_digitStep_repNat n]
  simp

theorem length_sprintfPad5 (n : Nat) :
    (sprintfPad5 n).length = max 5 (Nat.repr n).length := by
  simp only [sprintfPad5, String.length, List.length_append,
    List.length_replicate]
  omega

theorem sprintfPad5_wide (n : Nat) (h : 10 ^ 5 ≤ n) :
    sprintfPad5 n = Nat.repr n := by
  have hlen : 5 < (Nat.repr n).length := by
    have hb := lt_pow_repNat_length n
    have hlt : (10 : Nat) ^ 5 < 10 ^ (repNat n).length := lt_of_le_of_lt h hb
    have : 5 < (repNat n).length :=
      (Nat.pow_lt_pow_iff_right (by norm_num)).mp hlt
    simpa [String.length, repr_data_eq_repNat] using this
  have hzero : 5 - (Nat.repr n).length = 0 := by omega
  simp only [sprintfPad5, hzero, List.replicate, List.nil_append]

/-! ## Helper lemmas and concrete instances used by the claim theorems -/

theorem lookupParam_eq_empty (params : List (String × String)) (key : String)
    (h : ∀ p ∈ params, p.1 ≠ key) : lookupParam params key = "" := by
  unfold lookupParam
  have hnone : params.find? (fun p => p.1 == key) = none := by
    apply List.find?_eq_none.mpr
    intro p hp
    simpa using h p hp
  rw [hnone]

theorem filterMap_listTablesEntry (database : String)
    (entries : List GlueTableRecord) :
    entries.filterMap (listTablesEntry database) =
      (entries.filter
          (fun r => lookupParam r.parameters "table_type" == "ICEBERG")).map
        (fun r =>
          { identifier := [database, r.name]
            location := lookupParam r.parameters "metadata_location"
            catalogType := .glue }) := by
  induction entries with
  | nil => rfl
  | cons r rest ih =>
    by_cases h : lookupParam r.parameters "table_type" = "ICEBERG"
    · simp [List.filterMap_cons, List.filter_cons, h, listTablesEntry,
        GlueTableIdentifier, ih]
    · simp [List.filterMap_cons, List.filter_cons, h, listTablesEntry, ih]

/-- A Glue record for an Iceberg table with a metadata location. -/
def glueIceRecord : GlueTableRecord :=
  { name := "ice"
    parameters := [("table_type", "ICEBERG"),
                   ("metadata_location", "s3://bucket/meta/v1.json")] }

/-- A Glue record for a non-Iceberg table. -/
def gluePlainRecord : GlueTableRecord :=
  { name := "plain", parameters := [("table_type", "HIVE")] }

/-- A Glue record for an Iceberg table without a metadata location. -/
def glueNoLocRecord : GlueTableRecord :=
  { name := "noloc", parameters := [("table_type", "ICEBERG")] }

/-- A concrete Glue client instantiating the opaque backend. -/
def glueStub : GlueAPI where
  getTable := fun database tableName =>
    if database == "db" && tableName == "ice" then .ok glueIceRecord
    else if database == "db" && tableName == "plain" then .ok gluePlainRecord
    else if database == "db" && tableName == "noloc" then .ok glueNoLocRecord
    else if database == "db" && tableName == "boom" then
      .error (.other "backend unavailable")
    else .error .entityNotFound
  getTables := fun database =>
    if database == "db" then .ok [glueIceRecord, gluePlainRecord]
    else .error (.other "backend unavailable")

/-- A concrete Metadata value. -/
def sampleMetadata : Metadata :=
  { schemaList := [{ id := 1, fields := ["f"] }]
    currentSchemaID := 1
    partitionSpec := {}
    sortOrder := {}
    location := "s3://bucket/tbl"
    tableUUID := "uuid-1"
    properties := []
    snapshots := []
    currentSnapshotID := none }

/-! ## Claim theorems -/

/-- C1: for every 2-component identifier on which the backend get-table
call succeeds, `GetTable` returns
`CatalogTable{Identifier: as given, Location: "metadata_location" value,
CatalogType: glue}` when the record's `table_type` parameter equals
`"ICEBERG"`, and fails with the not-an-iceberg-table error whenever it is
any other value. -/
theorem getTable_tableType_check (svc : GlueAPI) (db tbl : String)
    (rec : GlueTableRecord) (hget : svc.getTable db tbl = .ok rec) :
    (lookupParam rec.parameters "table_type" = "ICEBERG" →
      GetTable svc [db, tbl] =
        .ok { identifier := [db, tbl]
              location := lookupParam rec.parameters "metadata_location"
              catalogType := .glue }) ∧
    (lookupParam rec.parameters "table_type" ≠ "ICEBERG" →
      GetTable svc [db, tbl] = .error .notIcebergTable) := by
  have hid : identifierToGlueTable [db, tbl] = .ok (db, tbl) := by
    simp [identifierToGlueTable]
  constructor
  · intro htype
    simp [GetTable, hid, hget, htype]
  · intro htype
    simp [GetTable, hid, hget, htype]

theorem getTable_tableType_check_witness :
    GetTable glueStub ["db", "ice"] =
      .ok { identifier := ["db", "ice"]
            location := "s3://bucket/meta/v1.json"
            catalogType := .glue } ∧
    GetTable glueStub ["db", "plain"] = .error .notIcebergTable :=
  ⟨(getTable_tableType_check glueStub "db" "ice" glueIceRecord
      rfl).1 (by decide),
   (getTable_tableType_check glueStub "db" "plain" gluePlainRecord
      rfl).2 (by decide)⟩

/-- C2: when the backend get-table call fails with the entity-not-found
error, `GetTable` fails with the distinguished `noSuchTable` sentinel; on
any other backend error it fails with the wrapper that names the namespace
and table and carries the original cause. -/
theorem getTable_backend_errors (svc : GlueAPI) (db tbl : String) :
    (svc.getTable db tbl = .error .entityNotFound →
      GetTable svc [db, tbl] = .error .noSuchTable) ∧
    (∀ msg, svc.getTable db tbl = .error (.other msg) →
      GetTable svc [db, tbl] =
        .error (.getTableFailed db tbl (.other msg))) := by
  have hid : identifierToGlueTable [db, tbl] = .ok (db, tbl) := by
    simp [identifierToGlueTable]
  constructor
  · intro hget
    simp [GetTable, hid, hget]
  · intro msg hget
    simp [GetTable, hid, hget]

theorem getTable_backend_errors_witness :
    GetTable glueStub ["db", "missing"] = .error .noSuchTable ∧
    GetTable glueStub ["db", "boom"] =
      .error (.getTableFailed "db" "boom" (.other "backend unavailable")) :=
  ⟨(getTable_backend_errors glueStub "db" "missing").1 rfl,
   (getTable_backend_errors glueStub "db" "boom").2 "backend unavailable"
     rfl⟩

/-- C3: on a namespace whose backend listing succeeds, `ListTables`
returns exactly the records whose `table_type` parameter is `"ICEBERG"`,
in backend order, each rebuilt as
`CatalogTable{[namespace, name], metadata_location, glue}`; non-matching
records are skipped without error, so the result length is the number of
matching records. -/
theorem listTables_filters_iceberg (svc : GlueAPI) (ns : String)
    (entries : List GlueTableRecord)
    (hlist : svc.getTables ns = .ok entries) :
    ListTables svc [ns] =
      .ok ((entries.filter
          (fun r => lookupParam r.parameters "table_type" == "ICEBERG")).map
        (fun r =>
          { identifier := [ns, r.name]
            location := lookupParam r.parameters "metadata_location"
            catalogType := .glue })) ∧
    ∀ result, ListTables svc [ns] = .ok result →
      result.length =
        (entries.filter
          (fun r =>
            lookupParam r.parameters "table_type" == "ICEBERG")).length := by
  have hns : identifierToGlueDatabase [ns] = .ok ns := by
    simp [identifierToGlueDatabase]
  have hmain : ListTables svc [ns] =
      .ok ((entries.filter
          (fun r => lookupParam r.parameters "table_type" == "ICEBERG")).map
        (fun r =>
          { identifier := [ns, r.name]
            location := lookupParam r.parameters "metadata_location"
            catalogType := .glue })) := by
    simp [ListTables, hns, hlist, filterMap_listTablesEntry]
  refine ⟨hmain, ?_⟩
  intro result hres
  rw [hmain] at hres
  injection hres with h
  subst h
  simp

theorem listTables_filters_iceberg_witness :
    ListTables glueStub ["db"] =
      .ok [{ identifier := ["db", "ice"]
             location := "s3://bucket/meta/v1.json"
             catalogType := .glue }] := by
  have h := (listTables_filters_iceberg glueStub "db"
    [glueIceRecord, gluePlainRecord] rfl).1
  simpa [glueIceRecord, gluePlainRecord, lookupParam] using h

/-- C4: table-identifier decomposition returns the two components exactly
when the identifier has two components, and fails with the
invalid-identifier error otherwise; namespace decomposition likewise for
one component; and `GetTable` on an identifier of any other length fails
with the invalid-identifier error regardless of the backend, hence before
any backend call. -/
theorem identifier_decomposition_arity (identifier : Identifier) :
    (∀ db tbl, identifierToGlueTable identifier = .ok (db, tbl) ↔
      identifier = [db, tbl]) ∧
    (identifier.length ≠ 2 →
      identifierToGlueTable identifier =
        .error (.invalidIdentifier identifier)) ∧
    (∀ ns, identifierToGlueDatabase identifier = .ok ns ↔
      identifier = [ns]) ∧
    (identifier.length ≠ 1 →
      identifierToGlueDatabase identifier =
        .error (.invalidIdentifier identifier)) ∧
    (∀ svc : GlueAPI, identifier.length ≠ 2 →
      GetTable svc identifier = .error (.invalidIdentifier identifier)) := by
  refine ⟨?_, ?_, ?_, ?_, ?_⟩
  · intro db tbl
    constructor
    · intro h
      by_cases hl : identifier.length = 2
      · obtain ⟨a, b, rfl⟩ := List.length_eq_two.mp hl
        simp [identifierToGlueTable] at h
        simp [h.1, h.2]
      · simp [identifierToGlueTable, hl] at h
    · rintro rfl
      simp [identifierToGlueTable]
  · intro hl
    simp [identifierToGlueTable, hl]
  · intro ns
    constructor
    · intro h
      by_cases hl : identifier.length = 1
      · obtain ⟨a, rfl⟩ := List.length_eq_one.mp hl
        simp [identifierToGlueDatabase] at h
        simp [h]
      · simp [identifierToGlueDatabase, hl] at h
    · rintro rfl
      simp [identifierToGlueDatabase]
  · intro hl
    simp [identifierToGlueDatabase, hl]
  · intro svc hl
    have he : identifierToGlueTable identifier =
        .error (.invalidIdentifier identifier) := by
      simp [identifierToGlueTable, hl]
    simp [GetTable, he]

theorem identifier_decomposition_arity_witness :
    GetTable glueStub ["a", "b", "c"] =
      .error (.invalidIdentifier ["a", "b", "c"]) ∧
    identifierToGlueDatabase ["a", "b"] =
      .error (.invalidIdentifier ["a", "b"]) :=
  ⟨(identifier_decomposition_arity ["a", "b", "c"]).2.2.2.2 glueStub
     (by decide),
   (identifier_decomposition_arity ["a", "b"]).2.2.2.1 (by decide)⟩

/-- C5: the identifier constructors and decompositions round-trip:
decomposing `GlueTableIdentifier db t` yields `(db, t)` and decomposing
`GlueDatabaseIdentifier db` yields `db`. -/
theorem glue_identifier_roundTrip (db t : String) :
    identifierToGlueTable (GlueTableIdentifier db t) = .ok (db, t) ∧
    identifierToGlueDatabase (GlueDatabaseIdentifier db) = .ok db := by
  constructor
  · simp [GlueTableIdentifier, identifierToGlueTable]
  · simp [GlueDatabaseIdentifier, identifierToGlueDatabase]

/-- C6: `GenerateMetadataFileName` fails with the invalid-version error on
every negative version; on every non-negative version it returns
`"<version padded to at least five digits>-<uuid>.metadata.json"`, the
numeric value of the padded prefix is the version, and versions from
100000 on simply widen the prefix (the prefix is the unpadded decimal
rendering). -/
theorem generateMetadataFileName_spec (v : Int) (u : String) :
    (v < 0 → GenerateMetadataFileName v u =
      .error ("invalid table version: " ++ toString v ++
        " must be a non-negative integer")) ∧
    (0 ≤ v →
      GenerateMetadataFileName v u =
        .ok (sprintfPad5 v.toNat ++ "-" ++ u ++ ".metadata.json") ∧
      decimalValue (sprintfPad5 v.toNat) = v.toNat ∧
      (sprintfPad5 v.toNat).length = max 5 (Nat.repr v.toNat).length ∧
      ((10 : Int) ^ 5 ≤ v → sprintfPad5 v.toNat = Nat.repr v.toNat)) := by
  constructor
  · intro hneg
    simp [GenerateMetadataFileName, hneg]
  · intro hpos
    have hnn : ¬ v < 0 := by omega
    refine ⟨by simp [GenerateMetadataFileName, hnn],
      decimalValue_sprintfPad5 v.toNat, length_sprintfPad5 v.toNat, ?_⟩
    intro hbig
    apply sprintfPad5_wide
    omega

theorem generateMetadataFileName_spec_witness :
    GenerateMetadataFileName (-1) "u" =
      .error ("invalid table version: " ++ toString (-1 : Int) ++
        " must be a non-negative integer") ∧
    decimalValue (sprintfPad5 (Int.toNat 3)) = Int.toNat 3 :=
  ⟨(generateMetadataFileName_spec (-1) "u").1 (by decide),
   ((generateMetadataFileName_spec 3 "u").2 (by decide)).2.1⟩

/-- C7: `Table.Equals` is true exactly when the identifier sequences are
element-wise equal, the metadata locations are identical, and the Metadata
values are deep-equal. -/
theorem table_equals_iff (a b : Table) :
    a.Equals b = true ↔
      a.identifier = b.identifier ∧
      a.metadataLocation = b.metadataLocation ∧
      a.metadata = b.metadata := by
  simp [Table.Equals, and_assoc]

/-- C8: building from a builder holding only the required inputs succeeds
and yields a Table whose Metadata has the empty property map and carries
the freshly minted UUID, so two builds with distinct minted UUIDs yield
distinct table UUIDs. -/
theorem build_required_only_fresh (ident : Identifier) (schema : Schema)
    (location metadataLocation : String) (u u' : String) (hne : u ≠ u') :
    ∃ t t' : Table,
      (NewTableBuilder ident schema location metadataLocation).Build u =
        .ok t ∧
      (NewTableBuilder ident schema location metadataLocation).Build u' =
        .ok t' ∧
      t.metadata.properties = [] ∧
      t.metadata.tableUUID = u ∧
      t'.metadata.tableUUID = u' ∧
      t.metadata.tableUUID ≠ t'.metadata.tableUUID := by
  refine ⟨_, _, rfl, rfl, rfl, rfl, rfl, ?_⟩
  simpa using hne

theorem build_required_only_fresh_witness :
    ∃ t t' : Table,
      (NewTableBuilder ["db", "tbl"] { id := 1, fields := ["f"] }
        "s3://bucket/tbl" "meta/v1.json").Build "uuid-a" = .ok t ∧
      (NewTableBuilder ["db", "tbl"] { id := 1, fields := ["f"] }
        "s3://bucket/tbl" "meta/v1.json").Build "uuid-b" = .ok t' ∧
      t.metadata.properties = [] ∧
      t.metadata.tableUUID = "uuid-a" ∧
      t'.metadata.tableUUID = "uuid-b" ∧
      t.metadata.tableUUID ≠ t'.metadata.tableUUID :=
  build_required_only_fresh ["db", "tbl"] { id := 1, fields := ["f"] }
    "s3://bucket/tbl" "meta/v1.json" "uuid-a" "uuid-b" (by decide)

/-- C9: `Table.Equals` ignores the storage handle: two Tables with equal
identifiers, metadata locations and metadata are equal even when their
`fs` fields differ. -/
theorem table_equals_ignores_fs (a b : Table)
    (hid : a.identifier = b.identifier)
    (hloc : a.metadataLocation = b.metadataLocation)
    (hmeta : a.metadata = b.metadata) (hfs : a.fs ≠ b.fs) :
    a.Equals b = true := by
  simp [Table.Equals, hid, hloc, hmeta]

theorem table_equals_ignores_fs_witness :
    Table.Equals
      { identifier := ["db", "tbl"], metadata := sampleMetadata
        metadataLocation := "s3://bucket/meta/v1.json", fs := { root := "a" } }
      { identifier := ["db", "tbl"], metadata := sampleMetadata
        metadataLocation := "s3://bucket/meta/v1.json", fs := { root := "b" } }
      = true :=
  table_equals_ignores_fs _ _ rfl rfl rfl (by decide)

/-- C10: `GetTable` does not validate the metadata location: on a record
marked `"ICEBERG"` whose parameter map has no `"metadata_location"` key,
it succeeds with the empty string as the location. -/
theorem getTable_missing_metadata_location (svc : GlueAPI) (db tbl : String)
    (rec : GlueTableRecord) (hget : svc.getTable db tbl = .ok rec)
    (htype : lookupParam rec.parameters "table_type" = "ICEBERG")
    (hmissing : ∀ p ∈ rec.parameters, p.1 ≠ "metadata_location") :
    GetTable svc [db, tbl] =
      .ok { identifier := [db, tbl], location := "", catalogType := .glue } := by
  have hid : identifierToGlueTable [db, tbl] = .ok (db, tbl) := by
    simp [identifierToGlueTable]
  have hloc := lookupParam_eq_empty rec.parameters "metadata_location" hmissing
  simp [GetTable, hid, hget, htype, hloc]

theorem getTable_missing_metadata_location_witness :
    GetTable glueStub ["db", "noloc"] =
      .ok { identifier := ["db", "noloc"], location := ""
            catalogType := .glue } :=
  getTable_missing_metadata_location glueStub "db" "noloc" glueNoLocRecord
    rfl (by decide) (by decide)

end IcebergGo
